import Mathlib

/-!
Shallow embedding of the startup-validator pipeline (Python sources under
`src/`).  Python floats are modelled as exact rationals, Python ints as `ℤ`
or `ℕ`, Python strings as Lean `String`, dictionaries whose fields may be
absent as structures of `Option` fields, and fallible code as `Except`.
Wall-clock fields (timestamps, execution times) are omitted throughout, as
are logging side effects.
-/

namespace StartupValidator

/-- Python `needle in hay` (substring containment). -/
def pyIn (needle hay : String) : Bool :=
  hay.toList.tails.any fun t => needle.toList.isPrefixOf t

/-- Python `int(q)` on a (here exact-rational) number: truncation toward
zero. -/
def pyTrunc (q : ℚ) : ℤ :=
  if q < 0 then ⌈q⌉ else ⌊q⌋

/-- Round to the nearest integer, ties to even (Python `round`). -/
def roundHalfEven (q : ℚ) : ℤ :=
  let f := ⌊q⌋
  let r := q - (f : ℚ)
  if r < 1/2 then f
  else if 1/2 < r then f + 1
  else if f % 2 = 0 then f else f + 1

/-- Python `round(q, 1)`. -/
def pyRound1 (q : ℚ) : ℚ :=
  (roundHalfEven (q * 10) : ℚ) / 10

/-! ## Controller (`src/src/agents/controller.py`) -/

/-- `ControllerAgent._determine_verdict` (controller.py lines 304-312). -/
def determine_verdict (score : ℚ) : String :=
  if 15/2 ≤ score then "GO ✅"
  else if 5 ≤ score then "PIVOT ⚠️"
  else "NO-GO ❌"

/-- Result of the `generate_recommendations` tool of
`StrategyAdvisorAgent` (strategy_advisor.py lines 70-119); the
`verdict` field is the f-string of the word and the emoji. -/
structure RecResult where
  verdict : String
  recommendations : List String
  key_success_factors : List String
deriving DecidableEq

/-- `generate_recommendations` tool (strategy_advisor.py lines 70-119). -/
def generate_recommendations (score : ℚ) : RecResult :=
  if 15/2 ≤ score then
    { verdict := "GO ✅"
      recommendations :=
        ["Proceed with MVP development", "Focus on rapid market entry",
         "Secure seed funding", "Build core team",
         "Establish early customer relationships"]
      key_success_factors :=
        ["Strong execution", "Customer focus", "Rapid iteration"] }
  else if 5 ≤ score then
    { verdict := "PIVOT ⚠️"
      recommendations :=
        ["Refine value proposition", "Focus on underserved niche",
         "Reduce initial scope", "Validate with potential customers",
         "Consider alternative business models"]
      key_success_factors :=
        ["Strong execution", "Customer focus", "Rapid iteration"] }
  else
    { verdict := "NO-GO ❌"
      recommendations :=
        ["Reconsider the fundamental concept", "Research alternative markets",
         "Explore different problem spaces", "Join an accelerator for guidance",
         "Consider partnering with existing players"]
      key_success_factors :=
        ["Strong execution", "Customer focus", "Rapid iteration"] }

/-! ## Strategy advisor synthesis (`src/src/agents/strategy_advisor.py`)

`synthesize` serialises its argument with `json.dumps` and the tool
parses it back with `json.loads`; since `json.dumps` always yields wellformed
JSON containing a brace, that round trip is the identity and the tool's
exception branch (score 6.5) is unreachable from `synthesize`.  The tools
are therefore embedded as functions on the structured value directly. -/

/-- The four per-stage analysis outputs handed to `synthesize`
(main_orchestrator.py builds this dictionary in phase 5).  The stage
payloads are opaque to the score computation, which never reads them. -/
structure AllAnalyses (μ κ τ φ : Type) where
  market : μ
  competitors : κ
  technical : τ
  financial : φ

/-- Scoring weights of `calculate_validation_score`
(strategy_advisor.py lines 38-44). -/
def strategy_weights : List (String × ℚ) :=
  [("market_size", 25/100), ("competition", 20/100),
   ("technical_feasibility", 20/100), ("financial_viability", 20/100),
   ("timing", 15/100)]

/-- Hardcoded component scores of `calculate_validation_score`
(strategy_advisor.py lines 47-53), as the access function of the
`scores` dictionary. -/
def strategy_component_score (key : String) : ℚ :=
  if key = "market_size" then 15/2
  else if key = "competition" then 6
  else if key = "technical_feasibility" then 8
  else if key = "financial_viability" then 7
  else if key = "timing" then 15/2
  else 0

/-- Result record of the `calculate_validation_score` tool. -/
structure ScoreResult where
  overall_score : ℚ
  confidence : ℚ

/-- `calculate_validation_score` tool (strategy_advisor.py lines 23-68):
the parsed analysis data is bound but never read, so the weighted sum of
the hardcoded component scores is returned for every input. -/
def calculate_validation_score {μ κ τ φ : Type}
    (analysis_data : AllAnalyses μ κ τ φ) : ScoreResult :=
  let _data := analysis_data
  let total_score :=
    (strategy_weights.map fun kw => strategy_component_score kw.1 * kw.2).sum
  { overall_score := pyRound1 total_score, confidence := 85/100 }

/-- One branch of the `create_action_plan` tool (strategy_advisor.py
lines 121-185). -/
structure ActionPlan where
  immediate_actions : List String
  day30_goals : List String
  day90_goals : List String
deriving DecidableEq

/-- `create_action_plan` tool (strategy_advisor.py lines 121-185); note the
branch test is substring containment, checked in order GO, PIVOT. -/
def create_action_plan (verdict : String) : ActionPlan :=
  if pyIn "GO" verdict then
    { immediate_actions :=
        ["Validate with 20 potential customers", "Build technical prototype",
         "Form founding team", "Apply to accelerators"]
      day30_goals :=
        ["Complete customer interviews", "Finalize MVP features",
         "Secure technical co-founder"]
      day90_goals :=
        ["Launch MVP", "Acquire first 100 users", "Raise pre-seed funding"] }
  else if pyIn "PIVOT" verdict then
    { immediate_actions :=
        ["Identify specific niche to target", "Revise value proposition",
         "Survey target customers"]
      day30_goals :=
        ["Complete pivot strategy", "Test new positioning",
         "Update business model"]
      day90_goals :=
        ["Launch revised MVP", "Measure traction metrics",
         "Decide on path forward"] }
  else
    { immediate_actions :=
        ["Document lessons learned", "Explore adjacent opportunities",
         "Network with other entrepreneurs"]
      day30_goals :=
        ["Generate new ideas", "Join startup community",
         "Find mentor or advisor"]
      day90_goals :=
        ["Validate new concept", "Build skills in weak areas",
         "Consider joining existing startup"] }

/-- Record returned by `StrategyAdvisorAgent.synthesize`
(strategy_advisor.py lines 209-230). -/
structure StrategySynthesis where
  score : ℚ
  verdict : String
  recommendations : List String
  action_plan : ActionPlan
  key_success_factors : List String
  confidence : ℚ

/-- `StrategyAdvisorAgent.synthesize` (strategy_advisor.py lines 209-230). -/
def synthesize {μ κ τ φ : Type} (all_analyses : AllAnalyses μ κ τ φ) :
    StrategySynthesis :=
  let score_result := calculate_validation_score all_analyses
  let overall_score := score_result.overall_score
  let recommendations := generate_recommendations overall_score
  let action_plan := create_action_plan recommendations.verdict
  { score := overall_score
    verdict := recommendations.verdict
    recommendations := recommendations.recommendations
    action_plan := action_plan
    key_success_factors := recommendations.key_success_factors
    confidence := 85/100 }

/-! ## Claims C1 and C2 -/

/-- C1: the verdict is selected by thresholding the overall score and is
one of the three labels GO / PIVOT / NO-GO (each rendered with its emoji
suffix): for every score `s`, both `ControllerAgent._determine_verdict`
and the strategy advisor's `generate_recommendations` tool yield the GO
label exactly when `7.5 ≤ s`, the PIVOT label exactly when
`5 ≤ s < 7.5`, and the NO-GO label exactly when `s < 5`, and no other
label is ever produced. -/
theorem verdict_thresholding (s : ℚ) :
    ((determine_verdict s = "GO ✅" ↔ 15/2 ≤ s) ∧
     (determine_verdict s = "PIVOT ⚠️" ↔ 5 ≤ s ∧ s < 15/2) ∧
     (determine_verdict s = "NO-GO ❌" ↔ s < 5)) ∧
    (((generate_recommendations s).verdict = "GO ✅" ↔ 15/2 ≤ s) ∧
     ((generate_recommendations s).verdict = "PIVOT ⚠️" ↔ 5 ≤ s ∧ s < 15/2) ∧
     ((generate_recommendations s).verdict = "NO-GO ❌" ↔ s < 5)) ∧
    (determine_verdict s = "GO ✅" ∨ determine_verdict s = "PIVOT ⚠️" ∨
     determine_verdict s = "NO-GO ❌") ∧
    ((generate_recommendations s).verdict = "GO ✅" ∨
     (generate_recommendations s).verdict = "PIVOT ⚠️" ∨
     (generate_recommendations s).verdict = "NO-GO ❌") := by
  have d12 : ("GO ✅" : String) ≠ "PIVOT ⚠️" := by decide
  have d13 : ("GO ✅" : String) ≠ "NO-GO ❌" := by decide
  have d23 : ("PIVOT ⚠️" : String) ≠ "NO-GO ❌" := by decide
  by_cases h1 : (15/2 : ℚ) ≤ s <;> by_cases h2 : (5 : ℚ) ≤ s
  · simp [determine_verdict, generate_recommendations, h1, h2,
      d12, d13, d12.symm, d13.symm, not_lt.mpr h1, not_lt.mpr h2]
  · exact absurd (le_trans (by norm_num) h1) h2
  · simp [determine_verdict, generate_recommendations, h1, h2,
      d12.symm, d23, d23.symm, not_le.mp h1, not_lt.mpr h2]
  · simp [determine_verdict, generate_recommendations, h1, h2,
      d13.symm, d23.symm, not_le.mp h2,
      lt_of_lt_of_le (not_le.mp h2) (by norm_num : (5:ℚ) ≤ 15/2)]

/-- C2: for every analyses record passed to
`StrategyAdvisorAgent.synthesize`, the returned score is the constant 7.2
and the returned verdict is `"PIVOT ⚠️"`: the component scores and the
weights inside `calculate_validation_score` are hardcoded, so the output
is independent of the input analyses. -/
theorem synthesize_constant_score {μ κ τ φ : Type}
    (all_analyses : AllAnalyses μ κ τ φ) :
    (synthesize all_analyses).score = 72/10 ∧
    (synthesize all_analyses).verdict = "PIVOT ⚠️" := by
  have hsum :
      (strategy_weights.map fun kw =>
        strategy_component_score kw.1 * kw.2).sum = 36/5 := by
    simp +decide only [strategy_weights, List.map_cons, List.map_nil,
      List.sum_cons, List.sum_nil, strategy_component_score]
    norm_num
  have hround : pyRound1 (36/5 : ℚ) = 72/10 := by
    have h72 : ((36:ℚ)/5) * 10 = ((72:ℤ) : ℚ) := by norm_num
    unfold pyRound1 roundHalfEven
    rw [h72, Int.floor_intCast]
    norm_num
  have hscore : (calculate_validation_score all_analyses).overall_score =
      72/10 := by
    show pyRound1 ((strategy_weights.map fun kw =>
      strategy_component_score kw.1 * kw.2).sum) = 72/10
    rw [hsum, hround]
  have hv : (5 : ℚ) ≤ 72/10 ∧ ¬ (15/2 : ℚ) ≤ 72/10 := by norm_num
  constructor
  · exact hscore
  · show (generate_recommendations
        (calculate_validation_score all_analyses).overall_score).verdict =
      "PIVOT ⚠️"
    rw [hscore]
    simp [generate_recommendations, hv.1, hv.2]

/-! ## Technical architect (`src/src/agents/technical_architect.py`) -/

/-- High-complexity keywords of `assess_technical_complexity`
(technical_architect.py lines 32-34). -/
def high_keywords : List String :=
  ["ai", "machine learning", "blockchain", "ar", "vr", "quantum",
   "autonomous", "robotics", "deep learning", "neural"]

/-- Medium-complexity keywords (technical_architect.py lines 35-36). -/
def medium_keywords : List String :=
  ["marketplace", "platform", "app", "saas", "api", "integration",
   "analytics", "dashboard", "automation", "cloud"]

/-- Low-complexity keywords (technical_architect.py lines 37-38). -/
def low_keywords : List String :=
  ["website", "blog", "landing page", "newsletter", "directory",
   "simple", "basic", "static"]

/-- The `complexity_indicators` dictionary, in its insertion order. -/
def complexity_indicators : List (String × List String) :=
  [("high", high_keywords), ("medium", medium_keywords),
   ("low", low_keywords)]

/-- The literal dictionary `{'high': 8, 'medium': 5, 'low': 3}` indexed at
a level name (technical_architect.py line 46). -/
def complexity_score_table (level : String) : ℤ :=
  if level = "high" then 8
  else if level = "medium" then 5
  else if level = "low" then 3
  else 0

/-- The for/break loop of `assess_technical_complexity`: first level any of
whose keywords occurs in the lowercased idea. -/
def scan_complexity_indicators (idea_lower : String) :
    List (String × List String) → Option String
  | [] => none
  | (level, kws) :: rest =>
    if kws.any (fun kw => pyIn kw idea_lower) then some level
    else scan_complexity_indicators idea_lower rest

/-- `assess_technical_complexity` tool (technical_architect.py lines
23-58), returning the complexity label and score. -/
def assess_technical_complexity (idea : String) : String × ℤ :=
  let idea_lower := idea.toLower
  match scan_complexity_indicators idea_lower complexity_indicators with
  | some level => (level, complexity_score_table level)
  | none => ("medium", 5)

/-- The behaviour C6 describes, written as the nested conditional of the
claim: high checked first, then medium, then low, with the default. -/
def assess_technical_complexity_claim (idea : String) : String × ℤ :=
  let idea_lower := idea.toLower
  if high_keywords.any (fun kw => pyIn kw idea_lower) then ("high", 8)
  else if medium_keywords.any (fun kw => pyIn kw idea_lower) then ("medium", 5)
  else if low_keywords.any (fun kw => pyIn kw idea_lower) then ("low", 3)
  else ("medium", 5)

/-- C6: technical complexity is classified by substring presence with the
fixed keyword lists checked in the order high, medium, low, with scores
8 / 5 / 3 and default medium / 5. -/
theorem assess_technical_complexity_keyword_order (idea : String) :
    assess_technical_complexity idea = assess_technical_complexity_claim idea := by
  unfold assess_technical_complexity assess_technical_complexity_claim
  cases hh : high_keywords.any (fun kw => pyIn kw idea.toLower) <;>
  cases hm : medium_keywords.any (fun kw => pyIn kw idea.toLower) <;>
  cases hl : low_keywords.any (fun kw => pyIn kw idea.toLower) <;>
    simp +decide [scan_complexity_indicators, complexity_indicators,
      complexity_score_table, hh, hm, hl]

/-! ## Controller input validation (`src/src/agents/controller.py`) -/

/-- The `spam_keywords` list of `_pre_validation_check`
(controller.py line 213). -/
def spam_keywords : List String := ["test", "asdf", "123", "xxx"]

/-- `ControllerAgent._pre_validation_check` (controller.py lines 206-220). -/
def pre_validation_check (startup_idea : String) : Bool :=
  if startup_idea.length < 10 then false
  else if spam_keywords.any (fun kw => pyIn kw startup_idea.toLower) then false
  else true

/-- The record built by `ControllerAgent._create_error_response`
(controller.py lines 354-361); the wall-clock timestamp field is
omitted. -/
structure ErrorResponse where
  error : Bool
  message : String
  status : String
deriving DecidableEq

/-- `ControllerAgent._create_error_response` (controller.py lines 354-361). -/
def create_error_response (message : String) : ErrorResponse :=
  { error := true, message := message, status := "error" }

/-- `ControllerAgent.start_validation` (controller.py lines 158-204),
parametrized by the workflow body that is executed only when the
pre-validation check passes. -/
def start_validation {α : Type} (run_workflow : String → α)
    (startup_idea : String) : ErrorResponse ⊕ α :=
  if ¬ pre_validation_check startup_idea then
    Sum.inl (create_error_response "Invalid input")
  else
    Sum.inr (run_workflow startup_idea)

/-- C9: `start_validation` rejects invalid input before running any stage:
for every idea string with fewer than 10 characters, or whose lowercased
text contains one of the spam substrings, it returns the error response
with `error = true`, `message = "Invalid input"`, `status = "error"`,
and the workflow body is never entered. -/
theorem start_validation_rejects_invalid {α : Type} (run_workflow : String → α)
    (startup_idea : String)
    (h : startup_idea.length < 10 ∨
      ∃ kw ∈ spam_keywords, pyIn kw startup_idea.toLower = true) :
    start_validation run_workflow startup_idea =
      Sum.inl { error := true, message := "Invalid input", status := "error" } := by
  have hpre : pre_validation_check startup_idea = false := by
    unfold pre_validation_check
    rcases h with h | ⟨kw, hkw, hin⟩
    · simp [h]
    · have hany : spam_keywords.any (fun kw => pyIn kw startup_idea.toLower) = true :=
        List.any_eq_true.mpr ⟨kw, hkw, hin⟩

      simp [hany]
  unfold start_validation
  simp [hpre, create_error_response]

/-- Witness for C9 at the concrete idea `"asdf"`. -/
theorem start_validation_rejects_invalid_witness :
    ("asdf".length < 10 ∨ ∃ kw ∈ spam_keywords, pyIn kw "asdf".toLower = true) ∧
    start_validation (fun _ => ()) "asdf" =
      Sum.inl { error := true, message := "Invalid input", status := "error" } :=
  ⟨Or.inl (by decide),
   start_validation_rejects_invalid (fun _ => ()) "asdf" (Or.inl (by decide))⟩

/-! ## Financial analyst (`src/src/agents/financial_analyst.py`) -/

/-- Characters matched by the regex class `[\d.]`. -/
def isNumChar (c : Char) : Bool := c.isDigit || c = '.'

/-- First match of the regex `[\d.]+` in a string, i.e.
`re.findall(r'[\d.]+', s)[0]`: the leftmost maximal run of digit-or-dot
characters. -/
def firstNumToken (s : String) : Option String :=
  let l := s.toList.dropWhile fun c => !isNumChar c
  if l.isEmpty then none
  else some (String.mk (l.takeWhile isNumChar))

/-- Numeric value of a run of decimal digits. -/
def digitsToNat (ds : List Char) : ℕ :=
  ds.foldl (fun acc c => acc * 10 + (c.toNat - Char.toNat '0')) 0

/-- Python `float(tok)` on a token drawn from the character class `[\d.]`:
defined exactly when the token has at least one digit and at most one
dot, in which case it denotes the decimal value; on any other such token
`float` raises `ValueError`, modelled as `none`. -/
def pyFloat (tok : String) : Option ℚ :=
  let cs := tok.toList
  if cs.all isNumChar ∧ cs.any Char.isDigit ∧ cs.count '.' ≤ 1 then
    let intPart := cs.takeWhile Char.isDigit
    let fracPart := (cs.dropWhile Char.isDigit).drop 1
    some ((digitsToNat intPart : ℚ) + (digitsToNat fracPart : ℚ) / 10 ^ fracPart.length)
  else none

/-- Revenue projection record of the `project_revenue` tool (the
formatted display strings are derived from these integers and are
omitted). -/
structure RevenueProjections where
  year_1 : ℤ
  year_2 : ℤ
  year_3 : ℤ
  year_5 : ℤ
deriving DecidableEq

/-- `project_revenue` tool (financial_analyst.py lines 73-113).  The
multiplier test on `"B"` and `"M"` is case-sensitive on the letter and
lowercases the string only for the spelled-out words, as in the code;
`float(numbers[0])` raising `ValueError` is the `Except.error` case. -/
def project_revenue (market_size : String) (capture_rate : ℚ) :
    Except Unit RevenueProjections :=
  let multiplier : ℚ :=
    if pyIn "B" market_size || pyIn "billion" market_size.toLower then
      1000000000
    else if pyIn "M" market_size || pyIn "million" market_size.toLower then
      1000000
    else 1000000
  let base? : Except Unit ℚ :=
    match firstNumToken market_size with
    | some tok =>
      match pyFloat tok with
      | some v => .ok v
      | none => .error ()
    | none => .ok 100
  match base? with
  | .error e => .error e
  | .ok base_number =>
    let market_value := base_number * multiplier
    .ok { year_1 := pyTrunc (market_value * capture_rate * (1/10))
          year_2 := pyTrunc (market_value * capture_rate * (3/10))
          year_3 := pyTrunc (market_value * capture_rate * 1)
          year_5 := pyTrunc (market_value * capture_rate * (5/2)) }

/-- The revenue projection described by C7, written from the claim's
words: first decimal number (default 100), times 1e9 when the string
holds a `"B"` or `"billion"` and 1e6 otherwise, times the capture rate,
truncated at the four horizon factors. -/
def project_revenue_claim (market_size : String) (capture_rate : ℚ) :
    RevenueProjections :=
  let base : ℚ :=
    match firstNumToken market_size with
    | some tok => (pyFloat tok).getD 0
    | none => 100
  let multiplier : ℚ :=
    if pyIn "B" market_size || pyIn "billion" market_size.toLower then
      1000000000
    else 1000000
  let market_value := base * multiplier
  { year_1 := pyTrunc (market_value * capture_rate * (1/10))
    year_2 := pyTrunc (market_value * capture_rate * (3/10))
    year_3 := pyTrunc (market_value * capture_rate * 1)
    year_5 := pyTrunc (market_value * capture_rate * (5/2)) }

/-- The first `[\d.]+` match of the string, when present, is a valid
float literal.  This is the condition under which `project_revenue`
returns instead of raising `ValueError`. -/
def first_token_parses (s : String) : Bool :=
  match firstNumToken s with
  | some tok => (pyFloat tok).isSome
  | none => true

/-- C7 (amended): whenever the first `[\d.]+` match of the market-size
string (if any) is a valid float literal, `project_revenue` returns the
constant-multiplier projections the claim describes; with no match the
base defaults to 100. -/
theorem project_revenue_formula (market_size : String) (capture_rate : ℚ)
    (h : first_token_parses market_size = true) :
    project_revenue market_size capture_rate =
      .ok (project_revenue_claim market_size capture_rate) := by
  unfold first_token_parses at h
  unfold project_revenue project_revenue_claim
  cases htok : firstNumToken market_size with
  | none => simp [htok]
  | some tok =>
    rw [htok] at h
    cases hf : pyFloat tok with
    | none => simp [hf] at h
    | some v => simp [htok, hf]

/-- Witness for C7 at the concrete market size string produced by the
market stage. -/
theorem project_revenue_formula_witness :
    first_token_parses "$4.5B" = true ∧
    project_revenue "$4.5B" (1/1000) =
      .ok (project_revenue_claim "$4.5B" (1/1000)) :=
  ⟨by decide, project_revenue_formula "$4.5B" (1/1000) (by decide)⟩

/-- Counterexample to C7 as stated: on the market-size string `"."` the
first `[\d.]+` match is `"."`, `float(".")` raises `ValueError`, and the
tool raises instead of returning projections for this input. -/
theorem project_revenue_valueerror :
    project_revenue "." (1/1000) = Except.error () := rfl

/-- The `costs` argument of `calculate_break_even` after its parsing
prelude (financial_analyst.py lines 124-132): a string without a brace
falls back to the default dictionary with total 100000; a string with a
brace either parses to a dictionary whose optional `total` entry is read
with default 100000, or fails to parse (or carries a non-numeric total,
making the arithmetic raise), which the handler turns into the fixed
18-month estimate. -/
inductive CostsInput where
  | noBrace : CostsInput
  | parsed (total : Option ℚ) : CostsInput
  | malformed : CostsInput

/-- Result record of `calculate_break_even` (formatted currency strings
omitted). -/
structure BreakEvenResult where
  months_to_break_even : ℕ
  break_even_timeline : String

/-- The cumulative-loss simulation loop of `calculate_break_even`
(financial_analyst.py lines 134-141): while `cumulative_loss <
total_costs and months < 36`, add a month, fold that month's profit into
the loss (clamped at 0), and grow revenue by 15 percent. -/
def break_even_loop (total_costs monthly_burn : ℚ) (months : ℕ)
    (cumulative_loss current_revenue : ℚ) : ℕ :=
  if h : cumulative_loss < total_costs ∧ months < 36 then
    break_even_loop total_costs monthly_burn (months + 1)
      (max 0 (cumulative_loss - (current_revenue - monthly_burn)))
      (current_revenue * (115/100))
  else months
termination_by 36 - months
decreasing_by obtain ⟨-, h2⟩ := h; omega

/-- `calculate_break_even` tool (financial_analyst.py lines 115-165); the
`monthly_revenue` argument is accepted and never read, as in the code. -/
def calculate_break_even (costs : CostsInput) (monthly_revenue : String) :
    BreakEvenResult :=
  match costs with
  | .malformed =>
    { months_to_break_even := 18, break_even_timeline := "18 months" }
  | .noBrace =>
    let total_costs : ℚ := 100000
    let monthly_burn := total_costs * (3/10) / 12
    let months := break_even_loop total_costs monthly_burn 0 0 5000
    { months_to_break_even := months
      break_even_timeline := toString months ++ " months" }
  | .parsed total =>
    let total_costs : ℚ := total.getD 100000
    let monthly_burn := total_costs * (3/10) / 12
    let months := break_even_loop total_costs monthly_burn 0 0 5000
    { months_to_break_even := months
      break_even_timeline := toString months ++ " months" }

/-- The loop leaves `months` at most 36 whenever it starts at most 36,
because each iteration requires `months < 36` and adds one. -/
theorem break_even_loop_le (tc mb : ℚ) :
    ∀ (k months : ℕ) (cl cr : ℚ), 36 - months ≤ k → months ≤ 36 →
      break_even_loop tc mb months cl cr ≤ 36 := by
  intro k
  induction k with
  | zero =>
    intro months cl cr hk hm
    unfold break_even_loop
    split
    · next h => exact absurd h.2 (by omega)
    · exact hm
  | succ k ih =>
    intro months cl cr hk hm
    unfold break_even_loop
    split
    · next h =>
      obtain ⟨-, h2⟩ := h
      exact ih (months + 1) _ _ (by omega) (by omega)
    · exact hm

/-- C10: for every costs input and monthly-revenue input,
`calculate_break_even` terminates with `months_to_break_even` between 0
and 36 inclusive — via the loop (whose guard requires `months < 36` and
which adds one month per iteration) or via the 18-month exception
fallback. -/
theorem calculate_break_even_bounded (costs : CostsInput)
    (monthly_revenue : String) :
    0 ≤ (calculate_break_even costs monthly_revenue).months_to_break_even ∧
    (calculate_break_even costs monthly_revenue).months_to_break_even ≤ 36 := by
  refine ⟨Nat.zero_le _, ?_⟩
  cases costs with
  | malformed => show 18 ≤ 36; omega
  | noBrace =>
    show break_even_loop 100000 (100000 * (3/10) / 12) 0 0 5000 ≤ 36
    exact break_even_loop_le _ _ 36 0 0 5000 (by omega) (by omega)
  | parsed total =>
    show break_even_loop (total.getD 100000)
      ((total.getD 100000) * (3/10) / 12) 0 0 5000 ≤ 36
    exact break_even_loop_le _ _ 36 0 0 5000 (by omega) (by omega)

/-! ## Market analyst (`src/src/agents/market_analyst_fixed.py`) -/

/-- The `baselines` dictionary of `_get_industry_baseline`
(market_analyst_fixed.py lines 25-36), in insertion order; values are in
billions of dollars. -/
def industry_baselines : List (String × ℚ) :=
  [("ai", 200), ("fintech", 380), ("healthtech", 450), ("edtech", 300),
   ("ecommerce", 5000), ("saas", 195), ("meal", 100), ("food", 2000),
   ("sustainability", 250), ("nutrition", 79/5), ("diabetes", 450)]

/-- `MarketAnalystAgent._get_industry_baseline`: value of the first key
occurring in the lowercased industry, default 100. -/
def get_industry_baseline (industry : String) : ℚ :=
  match industry_baselines.find? (fun kv => pyIn kv.1 industry.toLower) with
  | some kv => kv.2
  | none => 100

/-- Leftmost match of the pattern
`(?:USD\s*)?(\d+\.?\d*)\s*(?:billion|B)` (case-insensitive; `unit` is
the lowercased first letter of the unit, which decides the match since
both alternatives begin with it), returning the parsed capture group.
The optional `USD` prefix never affects which number is captured first.
Python's `\s` also covers form feed, vertical tab, and Unicode spaces,
which `Char.isWhitespace` omits; none of them affect the claims. -/
def matchNumUnit (unit : Char) : List Char → Option ℚ
  | [] => none
  | c :: rest =>
    if c.isDigit then
      let ds1 := (c :: rest).takeWhile Char.isDigit
      let after1 := (c :: rest).dropWhile Char.isDigit
      let numChars :=
        match after1 with
        | '.' :: r2 => ds1 ++ '.' :: r2.takeWhile Char.isDigit
        | _ => ds1
      let after :=
        match after1 with
        | '.' :: r2 => r2.dropWhile Char.isDigit
        | _ => after1
      match after.dropWhile Char.isWhitespace with
      | u :: _ =>
        if u.toLower = unit then pyFloat (String.mk numChars)
        else matchNumUnit unit rest
      | [] => matchNumUnit unit rest
    else matchNumUnit unit rest

/-- One entry of the `market_insights` list consumed by
`calculate_tam_sam_som`: the snippet text and the pre-extracted number
strings. -/
structure Insight where
  insight : String := ""
  numbers : List String := []

/-- The parsed optional `market_data` argument of
`calculate_tam_sam_som`. -/
structure MarketData where
  market_insights : List Insight := []

/-- Python truthiness of the running `tam_value` (`None` and `0.0` are
falsy). -/
def truthy_tam (v : Option ℚ) : Bool :=
  match v with
  | none => false
  | some q => if q = 0 then false else true

/-- The inner `for num in numbers` loop of `calculate_tam_sam_som`
(market_analyst_fixed.py lines 152-164): first number string carrying a
unit letter sets the value and breaks; `float` on an invalid first
`[\d.]+` token raises, caught by the surrounding handler
(`Except.error`). -/
def numbers_loop (tam : Option ℚ) : List String → Except Unit (Option ℚ)
  | [] => .ok tam
  | num :: rest =>
    match firstNumToken num with
    | none => numbers_loop tam rest
    | some tok =>
      match pyFloat tok with
      | none => .error ()
      | some value =>
        if pyIn "B" num || pyIn "billion" num.toLower then
          .ok (some (value * 1000000000))
        else if pyIn "M" num || pyIn "million" num.toLower then
          .ok (some (value * 1000000))
        else numbers_loop tam rest

/-- The `for insight in insights` loop of `calculate_tam_sam_som`
(market_analyst_fixed.py lines 139-170): billion pattern first, then
million pattern, then the extracted-number strings; a truthy value
breaks the loop. -/
def insights_loop (tam : Option ℚ) : List Insight → Except Unit (Option ℚ)
  | [] => .ok tam
  | ins :: rest =>
    match matchNumUnit 'b' ins.insight.toList with
    | some v => .ok (some (v * 1000000000))
    | none =>
      match matchNumUnit 'm' ins.insight.toList with
      | some v => .ok (some (v * 1000000))
      | none =>
        match numbers_loop tam ins.numbers with
        | .error e => .error e
        | .ok tam2 =>
          if truthy_tam tam2 then .ok tam2 else insights_loop tam2 rest

/-- The parsing section of `calculate_tam_sam_som` under its inner
`try`: an exception while scanning the insights resets `tam_value` to
`None` (market_analyst_fixed.py lines 166-168). -/
def parse_tam_from_market_data (md : MarketData) : Option ℚ :=
  match insights_loop none md.market_insights with
  | .ok tam => tam
  | .error _ => none

/-- Python `f"{q:.1f}"` under the exact-rational idealization of floats:
round to one decimal, ties to even. -/
def fmt1 (q : ℚ) : String :=
  let n := roundHalfEven (q * 10)
  toString (n / 10) ++ "." ++ toString (n % 10)

/-- Dollar formatting used for TAM/SAM/SOM
(market_analyst_fixed.py lines 176-189). -/
def formatMarketValue (v : ℚ) : String :=
  if v ≥ 1000000000 then "$" ++ fmt1 (v / 1000000000) ++ "B"
  else "$" ++ fmt1 (v / 1000000) ++ "M"

/-- Result record of `calculate_tam_sam_som`. -/
structure TamSamSom where
  TAM : ℚ
  TAM_formatted : String
  SAM : ℚ
  SAM_formatted : String
  SOM : ℚ
  SOM_formatted : String
  data_source : String

/-- `calculate_tam_sam_som` tool (market_analyst_fixed.py lines
120-208): extract a TAM figure from the search insights, fall back to
the industry baseline (in billions) when the extracted value is falsy,
then set SAM and SOM as fixed percentages.  The outer exception branch
of the Python code returns fixed constants ($100B / $15B / $750M) that
satisfy the same percentages; nothing in this total model raises, so it
is not reachable here. -/
def calculate_tam_sam_som (industry : String)
    (market_data : Option MarketData) : TamSamSom :=
  let tam_value : Option ℚ :=
    match market_data with
    | some md => parse_tam_from_market_data md
    | none => none
  let tam : ℚ :=
    if truthy_tam tam_value then tam_value.getD 0
    else get_industry_baseline industry * 1000000000
  let sam := tam * (15/100)
  let som := sam * (5/100)
  { TAM := tam
    TAM_formatted := formatMarketValue tam
    SAM := sam
    SAM_formatted := formatMarketValue sam
    SOM := som
    SOM_formatted := formatMarketValue som
    data_source :=
      if market_data.isSome ∧ tam ≠ 0 then "real_search"
      else "industry_baseline" }

/-- C3: TAM, SAM and SOM are fixed percentages of a single figure: for
every industry string and every market-data input (extracted figure or
industry baseline alike), SAM = 0.15 · TAM and SOM = 0.05 · SAM =
0.0075 · TAM. -/
theorem tam_sam_som_fixed_percentages (industry : String)
    (market_data : Option MarketData) :
    (calculate_tam_sam_som industry market_data).SAM =
      (15/100) * (calculate_tam_sam_som industry market_data).TAM ∧
    (calculate_tam_sam_som industry market_data).SOM =
      (5/100) * (calculate_tam_sam_som industry market_data).SAM ∧
    (calculate_tam_sam_som industry market_data).SOM =
      (75/10000) * (calculate_tam_sam_som industry market_data).TAM := by
  unfold calculate_tam_sam_som
  dsimp only
  refine ⟨by ring, by ring, by ring⟩

/-! ## Orchestrator (`src/src/main_orchestrator.py`)

The accumulated results dictionary is modelled as a structure whose
fields are `Option`s: `none` is an absent key, and every `.get(k, {})`
of the Python code becomes `Option.getD` with the empty (all-`none`)
record.  Stage outputs are likewise records of optional fields, so that
partial or empty records are expressible, as `_create_summary` and
`_calculate_overall_confidence` must tolerate. -/

/-- A `TAM`/`SAM`/`SOM` entry of the market-opportunity map. -/
structure MarketFigure where
  value : Option ℚ := none
  formatted : Option String := none

/-- The `market_opportunity` map of the market stage output. -/
structure MarketOpportunity where
  TAM : Option MarketFigure := none
  SAM : Option MarketFigure := none
  SOM : Option MarketFigure := none

/-- The `market_research` map of the market stage output. -/
structure MarketResearch where
  search_successful : Option Bool := none

/-- Market stage output fields read by the orchestrator. -/
structure MarketAnalysisOut where
  market_opportunity : Option MarketOpportunity := none
  market_research : Option MarketResearch := none
  confidence : Option ℚ := none
  data_source : Option String := none

/-- Competitor stage output fields read by the orchestrator. -/
structure CompetitorAnalysisOut where
  competitors_found : Option ℤ := none
  confidence : Option ℚ := none
  data_source : Option String := none

/-- The `complexity` map of the technical stage output. -/
structure ComplexityOut where
  complexity : Option String := none
  score : Option ℤ := none

/-- Technical stage output fields read by the orchestrator. -/
structure TechnicalAnalysisOut where
  complexity : Option ComplexityOut := none
  confidence : Option ℚ := none

/-- The `startup_costs` map of the financial stage output. -/
structure StartupCosts where
  formatted_total : Option String := none

/-- The `break_even_analysis` map of the financial stage output. -/
structure BreakEvenAnalysisOut where
  break_even_timeline : Option String := none

/-- Financial stage output fields read by the orchestrator. -/
structure FinancialAnalysisOut where
  startup_costs : Option StartupCosts := none
  break_even_analysis : Option BreakEvenAnalysisOut := none
  confidence : Option ℚ := none

/-- Strategy stage output fields read by the orchestrator. -/
structure StrategyOut where
  score : Option ℚ := none
  verdict : Option String := none
  recommendations : Option (List String) := none
  confidence : Option ℚ := none

/-- The `data_quality` map of the executive summary. -/
structure DataQuality where
  market : String
  competitors : String

/-- The executive summary built by `_create_summary`
(main_orchestrator.py lines 226-246). -/
structure Summary where
  score : ℚ
  verdict : String
  market_size : String
  competitors_found : ℤ
  technical_complexity : String
  initial_investment : String
  break_even : String
  top_recommendations : List String
  data_quality : DataQuality

/-- The results record accumulated by `validate_idea` (wall-clock
timestamp and execution-time fields omitted). -/
structure ValidationResults where
  idea : String := ""
  status : String := "processing"
  using_real_data : Option Bool := none
  market_analysis : Option MarketAnalysisOut := none
  competitor_analysis : Option CompetitorAnalysisOut := none
  technical_analysis : Option TechnicalAnalysisOut := none
  financial_analysis : Option FinancialAnalysisOut := none
  strategy : Option StrategyOut := none
  confidence_score : Option ℤ := none
  summary : Option Summary := none

/-- The `confidence_scores` list accumulated by
`_calculate_overall_confidence` (main_orchestrator.py lines 200-222):
market append, competitor append, then the loop over the technical,
financial and strategy keys appending `confidence * 100` when the key is
present and carries a confidence field. -/
def collected_confidence_scores (results : ValidationResults) : List ℚ :=
  let confidence_scores : List ℚ := []
  let confidence_scores := confidence_scores ++
    [if ((results.market_analysis.getD {}).market_research.getD
        {}).search_successful.getD false then (90 : ℚ) else 60]
  let confidence_scores := confidence_scores ++
    [if 3 ≤ (results.competitor_analysis.getD {}).competitors_found.getD 0
     then (85 : ℚ)
     else if 0 < (results.competitor_analysis.getD {}).competitors_found.getD 0
     then 70 else 50]
  let confidence_scores := confidence_scores ++
    (match results.technical_analysis with
     | some t => match t.confidence with
       | some c => [c * 100]
       | none => []
     | none => [])
  let confidence_scores := confidence_scores ++
    (match results.financial_analysis with
     | some f => match f.confidence with
       | some c => [c * 100]
       | none => []
     | none => [])
  let confidence_scores := confidence_scores ++
    (match results.strategy with
     | some s => match s.confidence with
       | some c => [c * 100]
       | none => []
     | none => [])
  confidence_scores

/-- `StartupValidatorOrchestrator._calculate_overall_confidence`
(main_orchestrator.py lines 200-224): the truncated mean of the
collected scores, 50 when none were collected (a branch that is dead in
this function, since the market and competitor scores are always
appended). -/
def calculate_overall_confidence (results : ValidationResults) : ℤ :=
  let confidence_scores := collected_confidence_scores results
  if confidence_scores.isEmpty then 50
  else pyTrunc (confidence_scores.sum / (confidence_scores.length : ℚ))

/-- The per-stage confidence list described by C4, written from the
claim's words: a market score of 90 on search success else 60, a
competitor score of 85 when at least 3 were found, 70 when more than 0,
else 50, and 100 times the confidence of each of the technical,
financial and strategy outputs that carries one. -/
def claimed_confidence_components (results : ValidationResults) : List ℚ :=
  [(if ((results.market_analysis.getD {}).market_research.getD
      {}).search_successful.getD false then (90 : ℚ) else 60),
   (if 3 ≤ (results.competitor_analysis.getD {}).competitors_found.getD 0
    then (85 : ℚ)
    else if 0 < (results.competitor_analysis.getD {}).competitors_found.getD 0
    then 70 else 50)] ++
  ((results.technical_analysis.bind TechnicalAnalysisOut.confidence).map
    (fun c => c * 100)).toList ++
  ((results.financial_analysis.bind FinancialAnalysisOut.confidence).map
    (fun c => c * 100)).toList ++
  ((results.strategy.bind StrategyOut.confidence).map
    (fun c => c * 100)).toList

/-- C4: the overall confidence percentage is the integer part of the
unweighted arithmetic mean of the collected per-stage confidence scores
exactly as the claim enumerates them; moreover that list is never empty,
so the 50-default branch for an empty collection is never the value
here. -/
theorem overall_confidence_unweighted_mean (results : ValidationResults) :
    claimed_confidence_components results ≠ [] ∧
    calculate_overall_confidence results =
      pyTrunc ((claimed_confidence_components results).sum /
        ((claimed_confidence_components results).length : ℚ)) := by
  have hlist : collected_confidence_scores results =
      claimed_confidence_components results := by
    obtain ⟨idea, status, urd, ma, ca, ta, fa, st, cs, sm⟩ := results
    rcases ta with _ | ⟨tcx, _ | tc⟩ <;>
    rcases fa with _ | ⟨fsc, fbe, _ | fc⟩ <;>
    rcases st with _ | ⟨ss, sv, sr, _ | sc⟩ <;>
      simp [collected_confidence_scores, claimed_confidence_components]
  have hne : claimed_confidence_components results ≠ [] := by
    simp [claimed_confidence_components]
  refine ⟨hne, ?_⟩
  show (if (collected_confidence_scores results).isEmpty then 50
    else pyTrunc ((collected_confidence_scores results).sum /
      ((collected_confidence_scores results).length : ℚ))) = _
  rw [hlist, if_neg (by simp [List.isEmpty_iff, hne])]

/-- `StartupValidatorOrchestrator._create_summary`
(main_orchestrator.py lines 226-246): every field is read through
defaulted gets, so the function is total on partial or empty records. -/
def create_summary (results : ValidationResults) : Summary :=
  let real_market_data :=
    ((results.market_analysis.getD {}).data_source.getD "").startsWith "Real"
  let real_competitor_data :=
    ((results.competitor_analysis.getD {}).data_source.getD "").startsWith "Real"
  { score := (results.strategy.getD {}).score.getD 0
    verdict := (results.strategy.getD {}).verdict.getD "Unknown"
    market_size := (((results.market_analysis.getD
      {}).market_opportunity.getD {}).TAM.getD {}).formatted.getD "Unknown"
    competitors_found :=
      (results.competitor_analysis.getD {}).competitors_found.getD 0
    technical_complexity :=
      ((results.technical_analysis.getD {}).complexity.getD
        {}).complexity.getD "Unknown"
    initial_investment :=
      ((results.financial_analysis.getD {}).startup_costs.getD
        {}).formatted_total.getD "Unknown"
    break_even :=
      ((results.financial_analysis.getD {}).break_even_analysis.getD
        {}).break_even_timeline.getD "Unknown"
    top_recommendations :=
      ((results.strategy.getD {}).recommendations.getD []).take 3
    data_quality :=
      { market := if real_market_data then "Real Research" else "Estimated"
        competitors := if real_competitor_data then "Real Search"
          else "Estimated" } }

/-- C8: `_create_summary` substitutes defaults for absent fields on every
(also partial or empty) results record: score 0, verdict and the
market/complexity/investment/break-even strings "Unknown", competitor
count 0, recommendations the empty list, and at most 3 recommendations
are kept when present.  (Totality — "returns without raising" — is
inherent in the function being well defined on all records.) -/
theorem create_summary_defaults (results : ValidationResults) :
    (results.strategy.bind StrategyOut.score = none →
      (create_summary results).score = 0) ∧
    (results.strategy.bind StrategyOut.verdict = none →
      (create_summary results).verdict = "Unknown") ∧
    (((results.market_analysis.bind
        MarketAnalysisOut.market_opportunity).bind
        MarketOpportunity.TAM).bind MarketFigure.formatted = none →
      (create_summary results).market_size = "Unknown") ∧
    (results.competitor_analysis.bind
        CompetitorAnalysisOut.competitors_found = none →
      (create_summary results).competitors_found = 0) ∧
    ((results.technical_analysis.bind
        TechnicalAnalysisOut.complexity).bind ComplexityOut.complexity = none →
      (create_summary results).technical_complexity = "Unknown") ∧
    ((results.financial_analysis.bind
        FinancialAnalysisOut.startup_costs).bind
        StartupCosts.formatted_total = none →
      (create_summary results).initial_investment = "Unknown") ∧
    ((results.financial_analysis.bind
        FinancialAnalysisOut.break_even_analysis).bind
        BreakEvenAnalysisOut.break_even_timeline = none →
      (create_summary results).break_even = "Unknown") ∧
    (results.strategy.bind StrategyOut.recommendations = none →
      (create_summary results).top_recommendations = []) ∧
    (create_summary results).top_recommendations.length ≤ 3 := by
  obtain ⟨idea, status, urd, ma, ca, ta, fa, st, cs, sm⟩ := results
  refine ⟨?_, ?_, ?_, ?_, ?_, ?_, ?_, ?_, ?_⟩
  · rcases st with _ | ⟨_ | ss, sv, sr, sc⟩ <;> simp [create_summary]
  · rcases st with _ | ⟨ss, _ | sv, sr, sc⟩ <;> simp [create_summary]
  · rcases ma with _ | ⟨_ | ⟨_ | ⟨tv, _ | tf⟩, sam, som⟩, mr, mc, ds⟩ <;>
      simp [create_summary]
  · rcases ca with _ | ⟨_ | cf, cc, ds⟩ <;> simp [create_summary]
  · rcases ta with _ | ⟨_ | ⟨_ | cx, sc⟩, tc⟩ <;> simp [create_summary]
  · rcases fa with _ | ⟨_ | ⟨_ | ft⟩, be, fc⟩ <;> simp [create_summary]
  · rcases fa with _ | ⟨sc, _ | ⟨_ | bt⟩, fc⟩ <;> simp [create_summary]
  · rcases st with _ | ⟨ss, sv, _ | sr, sc⟩ <;> simp [create_summary]
  · simp only [create_summary]
    exact List.length_take_le 3 _

/-! ## The five-stage pipeline (`validate_idea`) -/

/-- The five stage calls `validate_idea` makes, abstracted as functions:
the agents issue web searches and LLM calls, so their bodies are
parameters here; each stage's input type records exactly what the
orchestrator passes it. -/
structure Agents where
  marketAnalyze : String → MarketAnalysisOut
  competitorAnalyze : String → CompetitorAnalysisOut
  technicalAnalyze : String → TechnicalAnalysisOut
  financialAnalyze : String → MarketOpportunity → FinancialAnalysisOut
  strategySynthesize :
    AllAnalyses MarketAnalysisOut CompetitorAnalysisOut TechnicalAnalysisOut
      FinancialAnalysisOut → StrategyOut

/-- `StartupValidatorOrchestrator.validate_idea`
(main_orchestrator.py lines 76-198), success path (the `except` branch
only repackages an exception raised by a stage, which the abstracted
stages here do not do): the five stages run in sequence, each result is
stored under its key, the financial stage receives the market stage's
`market_opportunity` (via `.get('market_opportunity', {})`), the
strategy stage receives the four preceding outputs, and the confidence
score and summary are computed from the accumulated record. -/
def validate_idea (ag : Agents) (has_serper_key : Bool)
    (startup_idea : String) : ValidationResults :=
  let results : ValidationResults :=
    { idea := startup_idea
      status := "processing"
      using_real_data := some has_serper_key }
  let market_results := ag.marketAnalyze startup_idea
  let results := { results with market_analysis := some market_results }
  let competitor_results := ag.competitorAnalyze startup_idea
  let results := { results with competitor_analysis := some competitor_results }
  let technical_results := ag.technicalAnalyze startup_idea
  let results := { results with technical_analysis := some technical_results }
  let financial_results := ag.financialAnalyze startup_idea
    (market_results.market_opportunity.getD {})
  let results := { results with financial_analysis := some financial_results }
  let all_analyses :=
    { market := market_results
      competitors := competitor_results
      technical := technical_results
      financial := financial_results :
      AllAnalyses MarketAnalysisOut CompetitorAnalysisOut TechnicalAnalysisOut
        FinancialAnalysisOut }
  let strategy_results := ag.strategySynthesize all_analyses
  let results := { results with strategy := some strategy_results }
  let results := { results with status := "completed" }
  let results :=
    { results with confidence_score := some (calculate_overall_confidence results) }
  { results with summary := some (create_summary results) }

/-- C5: the pipeline runs the five stages in their fixed sequential
order on the input idea: the returned record stores each stage's output
under its own key, the financial stage's input is the market stage's
`market_opportunity` output, the strategy stage's input is the four
preceding stage outputs, and the input idea is carried unchanged. -/
theorem validate_idea_pipeline (ag : Agents) (has_serper_key : Bool)
    (startup_idea : String) :
    (validate_idea ag has_serper_key startup_idea).idea = startup_idea ∧
    (validate_idea ag has_serper_key startup_idea).market_analysis =
      some (ag.marketAnalyze startup_idea) ∧
    (validate_idea ag has_serper_key startup_idea).competitor_analysis =
      some (ag.competitorAnalyze startup_idea) ∧
    (validate_idea ag has_serper_key startup_idea).technical_analysis =
      some (ag.technicalAnalyze startup_idea) ∧
    (validate_idea ag has_serper_key startup_idea).financial_analysis =
      some (ag.financialAnalyze startup_idea
        ((ag.marketAnalyze startup_idea).market_opportunity.getD {})) ∧
    (validate_idea ag has_serper_key startup_idea).strategy =
      some (ag.strategySynthesize
        { market := ag.marketAnalyze startup_idea
          competitors := ag.competitorAnalyze startup_idea
          technical := ag.technicalAnalyze startup_idea
          financial := ag.financialAnalyze startup_idea
            ((ag.marketAnalyze startup_idea).market_opportunity.getD {}) }) ∧
    (validate_idea ag has_serper_key startup_idea).status = "completed" :=
  ⟨rfl, rfl, rfl, rfl, rfl, rfl, rfl⟩

end StartupValidator
